import Mathlib

/-!
Verification of the Trucker fleet-management data layer.

The Python source keeps each entity collection as a JSON document
(lists of dicts, plus one string-to-int mapping for inventory).  We embed:

* JSON-style records as association lists `Dict α := List (String × α)`
  with Python `dict` lookup/assignment/update semantics (`dget`, `dset`,
  `dictMerge`);
* heterogeneous record values as an inductive `Val`
  (strings, ints, rationals, booleans);
* each `DataManager` method and form handler as a pure function from the
  persisted state (plus the wall-clock inputs it reads) to the
  `(success, message)` pair and the new persisted state.  A method that
  returns before calling `save_data` leaves the persisted state unchanged,
  so its embedding returns the input collections.

Timestamps (`datetime.now().isoformat()`) enter as a `now : String`
parameter; calendar-date parsing (`datetime.fromisoformat(...).date()`) is
an uninterpreted `dateOf : String → Int` day-number function together with
a `today : Int` parameter, and elapsed whole days a `daysSince` function,
since the claims never depend on the concrete calendar arithmetic.
Python floats on the load form are modelled as exact rationals.
-/

/-- A Python dict as an association list (keys in insertion order). -/
abbrev Dict (α : Type) := List (String × α)

/-- Heterogeneous JSON values stored in entity records. -/
inductive Val where
  | s : String → Val
  | i : Int → Val
  | q : ℚ → Val
  | b : Bool → Val
deriving DecidableEq, Repr

/-- Python `d[k]` / `d.get(k)`: value at the first occurrence of key `k`. -/
def dget {α : Type} : Dict α → String → Option α
  | [], _ => none
  | (k₁, v₁) :: t, k => if k₁ = k then some v₁ else dget t k

/-- Python `d[k] = v`: overwrite the value at the first occurrence of `k`,
or append a new entry when the key is absent. -/
def dset {α : Type} : Dict α → String → α → Dict α
  | [], k, v => [(k, v)]
  | (k₁, v₁) :: t, k, v =>
    if k₁ = k then (k, v) :: t else (k₁, v₁) :: dset t k v

/-- Python `d.update(u)`: assign every entry of `u` into `d`, in order. -/
def dictMerge {α : Type} (d u : Dict α) : Dict α :=
  u.foldl (fun acc kv => dset acc kv.1 kv.2) d

/-- The keys of a dict, in order. -/
def dkeys {α : Type} (d : Dict α) : List String := d.map Prod.fst

/-- First-some choice on options (Python's "u wins over d" merge result). -/
def optOr {α : Type} : Option α → Option α → Option α
  | some v, _ => some v
  | none, o => o

theorem dget_dset_self {α : Type} (d : Dict α) (k : String) (v : α) :
    dget (dset d k v) k = some v := by
  induction d with
  | nil => simp [dget, dset]
  | cons kv t ih =>
    obtain ⟨k₁, v₁⟩ := kv
    by_cases h : k₁ = k
    · simp [dget, dset, h]
    · simp [dget, dset, h, ih]

theorem dget_dset_ne {α : Type} (d : Dict α) (k k' : String) (v : α)
    (h : k' ≠ k) : dget (dset d k v) k' = dget d k' := by
  induction d with
  | nil => simp [dget, dset, Ne.symm h]
  | cons kv t ih =>
    obtain ⟨k₁, v₁⟩ := kv
    by_cases h₁ : k₁ = k
    · subst h₁
      simp [dget, dset, Ne.symm h]
    · by_cases h₂ : k₁ = k'
      · simp [dget, dset, h₁, h₂, h]
      · simp [dget, dset, h₁, h₂, ih]

theorem dget_dset {α : Type} (d : Dict α) (k k' : String) (v : α) :
    dget (dset d k v) k' = if k' = k then some v else dget d k' := by
  by_cases h : k' = k
  · subst h
    simp [dget_dset_self]
  · simp [h, dget_dset_ne _ _ _ _ h]

theorem dget_eq_none_of_not_mem_dkeys {α : Type} (d : Dict α) (k : String)
    (h : k ∉ dkeys d) : dget d k = none := by
  induction d with
  | nil => rfl
  | cons kv t ih =>
    obtain ⟨k₁, v₁⟩ := kv
    simp only [dkeys, List.map_cons, List.mem_cons] at h
    push_neg at h
    simp [dget, Ne.symm h.1, ih (by simpa [dkeys] using h.2)]

theorem dget_dictMerge {α : Type} (d u : Dict α) (k : String)
    (hu : (dkeys u).Nodup) :
    dget (dictMerge d u) k = optOr (dget u k) (dget d k) := by
  induction u generalizing d with
  | nil => simp [dictMerge, dget, optOr]
  | cons kv t ih =>
    obtain ⟨k₁, v₁⟩ := kv
    simp only [dkeys, List.map_cons, List.nodup_cons] at hu
    have step : dictMerge d ((k₁, v₁) :: t) = dictMerge (dset d k₁ v₁) t := rfl
    rw [step, ih (dset d k₁ v₁) hu.2]
    by_cases h : k = k₁
    · subst h
      have ht : dget t k = none :=
        dget_eq_none_of_not_mem_dkeys t k (by simpa [dkeys] using hu.1)
      simp [dget, ht, optOr, dget_dset_self]
    · simp [dget, Ne.symm h, dget_dset_ne _ _ _ _ h]

/-! ## Python string helpers -/

/-- Python `str.upper()` on the basic-latin range (what `Char.toUpper`
covers), applied characterwise to the string's characters. -/
def pyUpper (s : String) : String := String.mk (s.data.map Char.toUpper)

theorem char_toUpper_toNat_valid (n : Nat) (h : n.isValidChar) :
    (Char.ofNat n).toNat = n := by
  simp only [Char.ofNat, dif_pos h, Char.ofNatAux, Char.toNat]
  simp [UInt32.toNat, BitVec.toNat_ofNatLt]

theorem char_toUpper_idem (c : Char) : c.toUpper.toUpper = c.toUpper := by
  by_cases h : c.toNat ≥ 97 ∧ c.toNat ≤ 122
  · have hv : (Char.ofNat (c.toNat - 32)).toNat = c.toNat - 32 := by
      apply char_toUpper_toNat_valid
      left
      omega
    simp only [Char.toUpper, if_pos h, hv]
    rw [if_neg]
    omega
  · simp only [Char.toUpper, if_neg h]

theorem pyUpper_idem (s : String) : pyUpper (pyUpper s) = pyUpper s := by
  simp [pyUpper, List.map_map, Function.comp_def, char_toUpper_idem]

/-- Python `f"{n:06d}"`: decimal digits left-padded with zeros to width 6. -/
def pad6 (n : Nat) : String :=
  String.mk (List.replicate (6 - (toString n).length) '0') ++ toString n

/-! ## Entity records

Records of the fixed-schema collections (maintenance, permits, token_tax)
are embedded as structures carrying exactly the fields the data layer
reads or writes; form-only payload fields that no claimed operation ever
inspects are not modelled.  Vehicle and load records flow through
dict-generic code (`dict.update`, key insertion), so they stay `Dict Val`.
-/

/-- A maintenance record.  `data_manager.py` reads `plate_number`,
`oil_changed`, `air_filter_changed`, `tires_changed` and writes
`created_at` and `id`; cost/odometer payload fields are never read there. -/
structure MaintRecord where
  plate_number : String
  oil_changed : Bool
  air_filter_changed : Bool
  tires_changed : Int
  created_at : String
  id : Nat
deriving DecidableEq, Repr

/-- A permit or token-tax record as read by the expiry and compliance
logic: only `plate_number` and `expire_date` are inspected. -/
structure DocRecord where
  plate_number : String
  expire_date : String
deriving DecidableEq, Repr

/-- A vehicle as read by the derived views, which inspect only
`vehicle['plate_number']`. -/
structure Vehicle where
  plate_number : String
deriving DecidableEq, Repr

/-! ## DataManager methods (`src/data_manager.py`)

Each method is a pure function of the collections it loads, the call
arguments and the timestamp it samples.  The returned collections are the
persisted state after the call: a method that returns before `save_data`
returns its input collections unchanged.
-/

/-- Embedding of `DataManager.add_vehicle` (`data_manager.py:56-71`): reject when some
stored vehicle's `plate_number` equals the new record's, else stamp
`created_at` and `id = len + 1` and append.  The source's scan-and-return
loop is the same test as `any` because a hit leaves the collection
untouched. -/
def add_vehicle (vehicles : List (Dict Val)) (vehicle_data : Dict Val)
    (now : String) : (Bool × String) × List (Dict Val) :=
  if vehicles.any (fun v =>
      decide (dget v "plate_number" = dget vehicle_data "plate_number")) then
    ((false, "Vehicle with this plate number already exists"), vehicles)
  else
    ((true, "Vehicle added successfully"),
      vehicles ++ [dset (dset vehicle_data "created_at" (Val.s now))
        "id" (Val.i (vehicles.length + 1))])

/-- Embedding of `DataManager.update_vehicle` (`data_manager.py:85-96`): find the first
vehicle whose `plate_number` equals the argument, `dict.update` it with
the partial record, stamp `updated_at`, save; otherwise fail with the
collection untouched. -/
def update_vehicle (vehicles : List (Dict Val)) (plate_number : String)
    (updated_data : Dict Val) (now : String) :
    (Bool × String) × List (Dict Val) :=
  match vehicles with
  | [] => ((false, "Vehicle not found"), [])
  | v :: rest =>
    if dget v "plate_number" = some (Val.s plate_number) then
      ((true, "Vehicle updated successfully"),
        dset (dictMerge v updated_data) "updated_at" (Val.s now) :: rest)
    else
      let r := update_vehicle rest plate_number updated_data now
      (r.1, v :: r.2)

/-- Inventory read `inventory.get(k, 0)`. -/
def invGet (inv : Dict Int) (k : String) : Int := (dget inv k).getD 0

/-- The oil step of `add_maintenance_record` (`data_manager.py:105-109`):
if `oil_changed` is truthy, either decrement the in-memory oil count or
abort the whole operation. -/
def deduct_oil (inv : Dict Int) (md : MaintRecord) : Except String (Dict Int) :=
  if md.oil_changed then
    if 0 < invGet inv "oil" then
      Except.ok (dset inv "oil" (invGet inv "oil" - 1))
    else Except.error "Insufficient oil in inventory"
  else Except.ok inv

/-- The air-filter step of `add_maintenance_record`
(`data_manager.py:111-115`). -/
def deduct_air_filter (inv : Dict Int) (md : MaintRecord) :
    Except String (Dict Int) :=
  if md.air_filter_changed then
    if 0 < invGet inv "air_filter" then
      Except.ok (dset inv "air_filter" (invGet inv "air_filter" - 1))
    else Except.error "Insufficient air filters in inventory"
  else Except.ok inv

/-- The tires step of `add_maintenance_record` (`data_manager.py:117-121`). -/
def deduct_tires (inv : Dict Int) (md : MaintRecord) :
    Except String (Dict Int) :=
  if 0 < md.tires_changed then
    if md.tires_changed ≤ invGet inv "tires" then
      Except.ok (dset inv "tires" (invGet inv "tires" - md.tires_changed))
    else Except.error "Insufficient tires in inventory"
  else Except.ok inv

/-- Embedding of `DataManager.add_maintenance_record` (`data_manager.py:98-132`): run
the three deduction checks in order; the first failure returns before any
`save_data`, so both persisted collections come back unchanged.  On
success the updated inventory is saved and the record is appended with
fresh `created_at` and `id = len + 1`. -/
def add_maintenance_record (records : List MaintRecord) (inv : Dict Int)
    (maintenance_data : MaintRecord) (now : String) :
    (Bool × String) × List MaintRecord × Dict Int :=
  match (deduct_oil inv maintenance_data).bind
      (fun i => deduct_air_filter i maintenance_data) |>.bind
      (fun i => deduct_tires i maintenance_data) with
  | Except.error msg => ((false, msg), records, inv)
  | Except.ok inv' =>
    ((true, "Maintenance record added successfully"),
      records ++ [{ maintenance_data with
        created_at := now, id := records.length + 1 }], inv')

/-- Embedding of `DataManager.update_inventory` (`data_manager.py:143-158`): initialise
an absent key to 0, then apply the operation (`add` unbounded, `subtract`
clamped at zero via `max(0, ...)`, `set` replacing; any other operation
string leaves quantities alone), save, and report the new value. -/
def update_inventory (inv : Dict Int) (item_type : String) (quantity : Int)
    (operation : String) : (Bool × String) × Dict Int :=
  let inv₀ := if (dget inv item_type).isSome then inv else dset inv item_type 0
  let inv₁ :=
    if operation = "add" then
      dset inv₀ item_type (invGet inv₀ item_type + quantity)
    else if operation = "subtract" then
      dset inv₀ item_type (max 0 (invGet inv₀ item_type - quantity))
    else if operation = "set" then
      dset inv₀ item_type quantity
    else inv₀
  ((true, "Inventory updated: " ++ item_type ++ " = "
      ++ toString (invGet inv₁ item_type)), inv₁)

/-- Embedding of `DataManager.get_expiring_permits` (`data_manager.py:206-219`): keep
the permits whose parsed expiry date lies at most `days_ahead` days after
today; the filter keeps input order, as the source's append loop does. -/
def get_expiring_permits (permits : List DocRecord) (dateOf : String → Int)
    (today : Int) (days_ahead : Int) : List DocRecord :=
  permits.filter (fun p => decide (dateOf p.expire_date - today ≤ days_ahead))

/-- Embedding of `DataManager.get_expiring_taxes` (`data_manager.py:221-234`): same
filter over the token-tax collection. -/
def get_expiring_taxes (tax_records : List DocRecord) (dateOf : String → Int)
    (today : Int) (days_ahead : Int) : List DocRecord :=
  tax_records.filter (fun t => decide (dateOf t.expire_date - today ≤ days_ahead))

/-- Python `max(xs, key=lambda x: x.get('created_at', ''))` on the
nonempty list `x :: xs`: fold keeping the current maximum, replacing it
only on a strictly greater key, so the first maximum wins ties. -/
def maxByCreatedAt (x : MaintRecord) (xs : List MaintRecord) : MaintRecord :=
  xs.foldl (fun acc r => if acc.created_at < r.created_at then r else acc) x

/-- The alert `get_maintenance_alerts` (`data_manager.py:242-264`) emits
for one vehicle: a high-priority dict when the vehicle has no maintenance
records; otherwise, with `d` the whole days since the lexicographically
latest `created_at`, nothing when `d ≤ 90`, and a dict whose priority is
`high` for `d > 180` and `medium` otherwise. -/
def maintenance_alert_for (records : List MaintRecord)
    (daysSince : String → Int) (plate : String) : Option (Dict String) :=
  match records.filter (fun m => decide (m.plate_number = plate)) with
  | [] => some [("plate_number", plate),
      ("alert", "No maintenance records found"), ("priority", "high")]
  | h :: t =>
    let last := maxByCreatedAt h t
    let d := daysSince last.created_at
    if 90 < d then
      some [("plate_number", plate),
        ("alert", "Last maintenance " ++ toString d ++ " days ago"),
        ("priority", if 180 < d then "high" else "medium")]
    else none

/-- Embedding of `DataManager.get_maintenance_alerts` (`data_manager.py:236-266`):
one pass over the vehicles, appending each vehicle's alert when there is
one. -/
def get_maintenance_alerts (vehicles : List Vehicle)
    (records : List MaintRecord) (daysSince : String → Int) :
    List (Dict String) :=
  vehicles.filterMap (fun v => maintenance_alert_for records daysSince v.plate_number)

/-- Embedding of `DataManager.add_load` (`data_manager.py:268-280`): stamp the
generated `load_number`, `created_at` and `id = len + 1` onto the record
and append it. -/
def add_load (loads : List (Dict Val)) (load_data : Dict Val) (now : String) :
    (Bool × String) × List (Dict Val) :=
  let load_number := "LD" ++ pad6 (loads.length + 1)
  ((true, "Load " ++ load_number ++ " added successfully"),
    loads ++ [dset (dset (dset load_data
      "load_number" (Val.s load_number))
      "created_at" (Val.s now))
      "id" (Val.i (loads.length + 1))])

/-- Embedding of `DataManager.update_load_status` (`data_manager.py:291-302`): find the
first load with the given `load_number`, overwrite `status`, stamp
`updated_at`, save; otherwise fail with the collection untouched. -/
def update_load_status (loads : List (Dict Val)) (load_number : String)
    (new_status : String) (now : String) : (Bool × String) × List (Dict Val) :=
  match loads with
  | [] => ((false, "Load not found"), [])
  | l :: rest =>
    if dget l "load_number" = some (Val.s load_number) then
      ((true, "Load status updated successfully"),
        dset (dset l "status" (Val.s new_status))
          "updated_at" (Val.s now) :: rest)
    else
      let r := update_load_status rest load_number new_status now
      (r.1, l :: r.2)

/-! ## Presentation-layer handlers that carry logic -/

/-- The submit branch of `show_add_vehicle_form`
(`vehicle_module.py:76-87`): the form builds the record with
`'plate_number': plate_number.upper()` as its first entry (`rest` holds
the remaining form fields) and hands it to `add_vehicle`. -/
def show_add_vehicle_submit (vehicles : List (Dict Val))
    (plate_number : String) (rest : Dict Val) (now : String) :
    (Bool × String) × List (Dict Val) :=
  add_vehicle vehicles (("plate_number", Val.s (pyUpper plate_number)) :: rest) now

/-- The per-vehicle compliance computation of `show_document_compliance`
(`dashboard_module.py:319-343`): count the vehicle's permits and taxes
whose parsed expiry date is strictly after today, and classify. -/
def complianceStatus (plate : String) (permits taxes : List DocRecord)
    (dateOf : String → Int) (today : Int) : String :=
  let valid_permits := permits.filter (fun p =>
    decide (p.plate_number = plate) && decide (today < dateOf p.expire_date))
  let valid_taxes := taxes.filter (fun t =>
    decide (t.plate_number = plate) && decide (today < dateOf t.expire_date))
  let has_permit := 0 < valid_permits.length
  let has_tax := 0 < valid_taxes.length
  if has_permit ∧ has_tax then "Compliant"
  else if has_permit ∨ has_tax then "Partial"
  else "Non-Compliant"

/-- Embedding of `get_reorder_level` (`inventory_module.py:425-432`): fixed table with
default 5. -/
def get_reorder_level (item_type : String) : Int :=
  if item_type = "oil" then 5
  else if item_type = "air_filter" then 10
  else if item_type = "tires" then 8
  else 5

/-- A flagged item of `show_low_stock_alerts` (`inventory_module.py:310-322`).
`item` keeps the raw inventory key; the source's
`item_key.replace('_', ' ').title()` display renaming is presentation
only and not modelled. -/
structure LowStockItem where
  item : String
  current_stock : Int
  reorder_level : Int
  priority : String
  recommended_order : Int
deriving DecidableEq, Repr

/-- The low-stock classification of one inventory entry
(`inventory_module.py:310-322`): flagged when `quantity ≤ reorder_level`,
with priority `Critical` when the quantity is 0, `High` when
`quantity ≤ reorder_level * 0.5` (exactly `2 * quantity ≤ reorder_level`
over the integers) and `Medium` otherwise, plus the recommended
reorder amount `max(reorder_level * 2 - quantity, reorder_level)`. -/
def lowStockEntry (item_key : String) (quantity : Int) : Option LowStockItem :=
  let reorder_level := get_reorder_level item_key
  if quantity ≤ reorder_level then
    some { item := item_key
           current_stock := quantity
           reorder_level := reorder_level
           priority :=
             if quantity = 0 then "Critical"
             else if 2 * quantity ≤ reorder_level then "High"
             else "Medium"
           recommended_order := max (reorder_level * 2 - quantity) reorder_level }
  else none

/-- The flagged-item list `show_low_stock_alerts` builds from the
inventory mapping, in key order. -/
def low_stock_items (inventory : Dict Int) : List LowStockItem :=
  inventory.filterMap (fun kv => lowStockEntry kv.1 kv.2)

/-- The submit branch of `show_add_load_form` (`load_module.py:59-121`):
derived fields `net_weight` (clamped to 0 unless `gross > tare`),
`amount = net * rate`, `pending = amount - advance`; submission is
rejected when a required field is falsy (empty string or zero number) or
when `net_weight ≤ 0`, and otherwise the full record is handed to
`add_load`.  `loading_date` and the time fields are always truthy in the
source and enter only as payload. -/
def show_add_load_submit (loads : List (Dict Val))
    (plate_number loading_date source destination party_name contractor
      product_type loading_time delivery_date delivery_time status notes
      now : String) (gross_weight tare_weight rate_per_unit advance_payment : ℚ) :
    (Bool × String) × List (Dict Val) :=
  let load_number := "LD" ++ pad6 (loads.length + 1)
  let net_weight := if tare_weight < gross_weight
    then gross_weight - tare_weight else 0
  let amount := net_weight * rate_per_unit
  let pending_amount := amount - advance_payment
  if plate_number = "" ∨ source = "" ∨ party_name = ""
      ∨ gross_weight = 0 ∨ tare_weight = 0 ∨ rate_per_unit = 0 then
    ((false, "Please fill in all required fields (marked with *)!"), loads)
  else if net_weight ≤ 0 then
    ((false, "Net weight must be positive. Check gross and tare weights."), loads)
  else
    add_load loads
      [("load_number", Val.s load_number),
       ("plate_number", Val.s plate_number),
       ("loading_date", Val.s loading_date),
       ("source", Val.s source),
       ("destination", Val.s destination),
       ("gross_weight", Val.q gross_weight),
       ("tare_weight", Val.q tare_weight),
       ("net_weight", Val.q net_weight),
       ("rate_per_unit", Val.q rate_per_unit),
       ("amount", Val.q amount),
       ("advance_payment", Val.q advance_payment),
       ("pending_amount", Val.q pending_amount),
       ("party_name", Val.s party_name),
       ("contractor", Val.s contractor),
       ("product_type", Val.s product_type),
       ("loading_time", Val.s loading_time),
       ("delivery_date", Val.s delivery_date),
       ("delivery_time", Val.s delivery_time),
       ("status", Val.s status),
       ("notes", Val.s notes),
       ("created_at", Val.s now)] now

/-- The field read `show_maintenance_alerts` (`maintenance_module.py:319`)
performs on each alert dict: `alert['alert_type']`, which raises
`KeyError` — i.e. yields `none` — when the key is absent. -/
def show_maintenance_alerts_read (alert : Dict String) : Option String :=
  dget alert "alert_type"

/-! ## Helper lemmas -/

/-- Persisted inventory after a sequence of `subtract` calls. -/
def subtract_calls (inv : Dict Int) (calls : List (String × Int)) : Dict Int :=
  calls.foldl (fun i c => (update_inventory i c.1 c.2 "subtract").2) inv

theorem update_inventory_subtract (inv : Dict Int) (item : String) (q : Int) :
    (update_inventory inv item q "subtract").1.1 = true ∧
    invGet (update_inventory inv item q "subtract").2 item
      = max 0 (invGet inv item - q) ∧
    ∀ k, k ≠ item → dget (update_inventory inv item q "subtract").2 k
      = dget inv k := by
  by_cases h : (dget inv item).isSome
  · refine ⟨rfl, ?_, ?_⟩
    · simp [update_inventory, h, invGet, dget_dset_self]
    · intro k hk
      simp [update_inventory, h, dget_dset_ne _ _ _ _ hk]
  · have h0 : dget inv item = none := by
      cases hd : dget inv item
      · rfl
      · simp [hd] at h
    refine ⟨rfl, ?_, ?_⟩
    · simp [update_inventory, h, invGet, dget_dset_self, dget_dset_ne, h0]
    · intro k hk
      simp [update_inventory, h, dget_dset_ne _ _ _ _ hk]

theorem update_inventory_subtract_nonneg (inv : Dict Int) (item : String)
    (q : Int) (h0 : ∀ k, 0 ≤ invGet inv k) :
    ∀ k, 0 ≤ invGet (update_inventory inv item q "subtract").2 k := by
  intro k
  obtain ⟨-, hitem, hframe⟩ := update_inventory_subtract inv item q
  by_cases hk : k = item
  · subst hk
    rw [hitem]
    exact le_max_left 0 _
  · rw [invGet, hframe k hk]
    exact h0 k

theorem subtract_calls_nonneg (calls : List (String × Int)) (inv : Dict Int)
    (h0 : ∀ k, 0 ≤ invGet inv k) :
    ∀ k, 0 ≤ invGet (subtract_calls inv calls) k := by
  induction calls generalizing inv with
  | nil => exact h0
  | cons c t ih =>
    exact ih _ (update_inventory_subtract_nonneg inv c.1 c.2 h0)

/-! ## Claims -/

/-- C3: starting from an inventory with non-negative quantities, every
sequence of `update_inventory(item, qty, 'subtract')` calls keeps every
quantity non-negative; each single call succeeds and leaves the item at
`max 0 (previous - qty)` (an absent key counting as 0 beforehand, which
is what `invGet` reads) while not touching any other key. -/
theorem update_inventory_subtract_clamps_and_never_negative
    (inv : Dict Int) (h0 : ∀ k, 0 ≤ invGet inv k)
    (calls : List (String × Int)) :
    (∀ k, 0 ≤ invGet (subtract_calls inv calls) k) ∧
    (∀ inv' : Dict Int, ∀ item : String, ∀ q : Int,
      (update_inventory inv' item q "subtract").1.1 = true ∧
      invGet (update_inventory inv' item q "subtract").2 item
        = max 0 (invGet inv' item - q) ∧
      (dget inv' item = none → invGet inv' item = 0) ∧
      (∀ k, k ≠ item →
        dget (update_inventory inv' item q "subtract").2 k = dget inv' k)) := by
  refine ⟨subtract_calls_nonneg calls inv h0, fun inv' item q => ?_⟩
  obtain ⟨hs, hv, hf⟩ := update_inventory_subtract inv' item q
  exact ⟨hs, hv, fun hn => by simp [invGet, hn], hf⟩

/-- C3 witness: from `{oil: 3}`, subtracting 10 oil succeeds and clamps
the stock at 0. -/
theorem update_inventory_subtract_witness :
    invGet (subtract_calls [("oil", 3)] [("oil", 10)]) "oil" = 0 ∧
    (update_inventory [("oil", 3)] "oil" 10 "subtract").1.1 = true := by
  have h := update_inventory_subtract_clamps_and_never_negative
    [("oil", 3)]
    (by
      intro k
      by_cases hk : "oil" = k <;> simp [invGet, dget, hk])
    [("oil", 10)]
  refine ⟨le_antisymm ?_ (h.1 "oil"), (h.2 [("oil", 3)] "oil" 10).1⟩
  have hv := (h.2 [("oil", 3)] "oil" 10).2.1
  simp only [subtract_calls, List.foldl_cons, List.foldl_nil]
  rw [hv]
  decide

/-- C4: the per-vehicle compliance status is `Compliant` exactly when the
vehicle has both an unexpired permit and an unexpired tax record
(expiry strictly after today), `Partial` exactly when it has exactly one
of the two, and `Non-Compliant` exactly when it has neither. -/
theorem complianceStatus_characterisation (plate : String)
    (permits taxes : List DocRecord) (dateOf : String → Int) (today : Int) :
    (complianceStatus plate permits taxes dateOf today = "Compliant" ↔
      (∃ p ∈ permits, p.plate_number = plate ∧ today < dateOf p.expire_date) ∧
      (∃ t ∈ taxes, t.plate_number = plate ∧ today < dateOf t.expire_date)) ∧
    (complianceStatus plate permits taxes dateOf today = "Partial" ↔
      (((∃ p ∈ permits, p.plate_number = plate ∧ today < dateOf p.expire_date) ∧
        ¬(∃ t ∈ taxes, t.plate_number = plate ∧ today < dateOf t.expire_date)) ∨
       ((∃ t ∈ taxes, t.plate_number = plate ∧ today < dateOf t.expire_date) ∧
        ¬(∃ p ∈ permits, p.plate_number = plate ∧ today < dateOf p.expire_date)))) ∧
    (complianceStatus plate permits taxes dateOf today = "Non-Compliant" ↔
      (¬(∃ p ∈ permits, p.plate_number = plate ∧ today < dateOf p.expire_date) ∧
       ¬(∃ t ∈ taxes, t.plate_number = plate ∧ today < dateOf t.expire_date))) := by
  have hp : 0 < (permits.filter (fun p =>
      decide (p.plate_number = plate) && decide (today < dateOf p.expire_date))).length ↔
      (∃ p ∈ permits, p.plate_number = plate ∧ today < dateOf p.expire_date) := by
    rw [List.length_pos_iff_exists_mem]
    simp [List.mem_filter]
  have ht : 0 < (taxes.filter (fun t =>
      decide (t.plate_number = plate) && decide (today < dateOf t.expire_date))).length ↔
      (∃ t ∈ taxes, t.plate_number = plate ∧ today < dateOf t.expire_date) := by
    rw [List.length_pos_iff_exists_mem]
    simp [List.mem_filter]
  by_cases hP : ∃ p ∈ permits, p.plate_number = plate ∧ today < dateOf p.expire_date <;>
    by_cases hT : ∃ t ∈ taxes, t.plate_number = plate ∧ today < dateOf t.expire_date <;>
      simp [complianceStatus, hp, ht, hP, hT]

/-- C5: the expiring-documents queries return exactly the records whose
parsed expiry date is at most `days_ahead` days after today; for any
non-negative window this includes every already-expired record. -/
theorem get_expiring_within_window (permits taxes : List DocRecord)
    (dateOf : String → Int) (today days_ahead : Int) :
    (∀ p, p ∈ get_expiring_permits permits dateOf today days_ahead ↔
      p ∈ permits ∧ dateOf p.expire_date - today ≤ days_ahead) ∧
    (∀ t, t ∈ get_expiring_taxes taxes dateOf today days_ahead ↔
      t ∈ taxes ∧ dateOf t.expire_date - today ≤ days_ahead) ∧
    (0 ≤ days_ahead →
      (∀ p ∈ permits, dateOf p.expire_date - today < 0 →
        p ∈ get_expiring_permits permits dateOf today days_ahead) ∧
      (∀ t ∈ taxes, dateOf t.expire_date - today < 0 →
        t ∈ get_expiring_taxes taxes dateOf today days_ahead)) := by
  refine ⟨?_, ?_, ?_⟩
  · intro p
    simp [get_expiring_permits, List.mem_filter]
  · intro t
    simp [get_expiring_taxes, List.mem_filter]
  · intro hd
    constructor
    · intro p hp hlt
      simp only [get_expiring_permits, List.mem_filter]
      exact ⟨hp, by simp; omega⟩
    · intro t htx hlt
      simp only [get_expiring_taxes, List.mem_filter]
      exact ⟨htx, by simp; omega⟩

/-- C5 witness: a permit five days expired is still returned by the
30-day query. -/
theorem get_expiring_includes_expired_witness :
    (⟨"ABC-123", "2020-01-01"⟩ : DocRecord) ∈
      get_expiring_permits [⟨"ABC-123", "2020-01-01"⟩] (fun _ => -5) 0 30 := by
  have h := (get_expiring_within_window [⟨"ABC-123", "2020-01-01"⟩] []
    (fun _ => -5) 0 30).2.2 (by decide)
  exact h.1 ⟨"ABC-123", "2020-01-01"⟩ (by simp) (by decide)

theorem invGet_dset_ne (inv : Dict Int) (k k' : String) (v : Int)
    (h : k' ≠ k) : invGet (dset inv k v) k' = invGet inv k' := by
  simp [invGet, dget_dset_ne _ _ _ _ h]

/-- C7: with the default reorder levels (oil 5, air_filter 10, tires 8,
anything else 5) and a non-negative quantity, an inventory entry is
flagged `Critical` exactly when its quantity is 0, `High` exactly when it
is positive and at most half the reorder level, `Medium` exactly when it
is above half the reorder level but at most the reorder level, and not
flagged exactly when it exceeds the reorder level; on the inventory
`{oil: 0, air_filter: 12, tires: 3}` this flags oil `Critical`, skips
air_filter, and flags tires `High`. -/
theorem low_stock_classification (k : String) (q : Int) (hq : 0 ≤ q) :
    (get_reorder_level "oil" = 5 ∧ get_reorder_level "air_filter" = 10 ∧
      get_reorder_level "tires" = 8) ∧
    ((∃ it, lowStockEntry k q = some it ∧ it.priority = "Critical") ↔ q = 0) ∧
    ((∃ it, lowStockEntry k q = some it ∧ it.priority = "High") ↔
      0 < q ∧ 2 * q ≤ get_reorder_level k) ∧
    ((∃ it, lowStockEntry k q = some it ∧ it.priority = "Medium") ↔
      get_reorder_level k < 2 * q ∧ q ≤ get_reorder_level k) ∧
    (lowStockEntry k q = none ↔ get_reorder_level k < q) ∧
    low_stock_items [("oil", 0), ("air_filter", 12), ("tires", 3)] =
      [{ item := "oil", current_stock := 0, reorder_level := 5,
         priority := "Critical", recommended_order := 10 },
       { item := "tires", current_stock := 3, reorder_level := 8,
         priority := "High", recommended_order := 13 }] := by
  have hrl : 0 < get_reorder_level k := by
    unfold get_reorder_level
    split_ifs <;> norm_num
  refine ⟨by decide, ?_, ?_, ?_, ?_, by decide⟩ <;>
    by_cases h1 : q ≤ get_reorder_level k <;>
      by_cases h2 : q = 0 <;>
        by_cases h3 : 2 * q ≤ get_reorder_level k <;>
          simp [lowStockEntry, h1, h2, h3, hrl.le] <;> omega

/-- C7 witness: tires at quantity 3 with reorder level 8 are flagged with
priority `High`. -/
theorem low_stock_tires_witness :
    ∃ it, lowStockEntry "tires" 3 = some it ∧ it.priority = "High" :=
  ((low_stock_classification "tires" 3 (by decide)).2.2.1).mpr (by decide)

/-- The inventory-deduction pipeline of `add_maintenance_record`. -/
def deduct_all (inv : Dict Int) (md : MaintRecord) : Except String (Dict Int) :=
  (deduct_oil inv md).bind (fun i => deduct_air_filter i md) |>.bind
    (fun i => deduct_tires i md)

theorem add_maintenance_record_eq_deduct_all (records : List MaintRecord)
    (inv : Dict Int) (md : MaintRecord) (now : String) :
    add_maintenance_record records inv md now =
      match deduct_all inv md with
      | Except.error msg => ((false, msg), records, inv)
      | Except.ok inv' =>
        ((true, "Maintenance record added successfully"),
          records ++ [{ md with created_at := now, id := records.length + 1 }],
          inv') := rfl

theorem add_maintenance_record_of_error (records : List MaintRecord)
    (inv : Dict Int) (md : MaintRecord) (now msg : String)
    (hp : deduct_all inv md = Except.error msg) :
    add_maintenance_record records inv md now = ((false, msg), records, inv) := by
  rw [add_maintenance_record_eq_deduct_all, hp]

theorem deduct_all_error_oil (inv : Dict Int) (md : MaintRecord) (msg : String)
    (h1 : deduct_oil inv md = Except.error msg) :
    deduct_all inv md = Except.error msg := by
  simp [deduct_all, h1, Except.bind]

theorem deduct_all_error_air_filter (inv i₁ : Dict Int) (md : MaintRecord)
    (msg : String) (h1 : deduct_oil inv md = Except.ok i₁)
    (h2 : deduct_air_filter i₁ md = Except.error msg) :
    deduct_all inv md = Except.error msg := by
  simp [deduct_all, h1, h2, Except.bind]

theorem deduct_all_error_tires (inv i₁ i₂ : Dict Int) (md : MaintRecord)
    (msg : String) (h1 : deduct_oil inv md = Except.ok i₁)
    (h2 : deduct_air_filter i₁ md = Except.ok i₂)
    (h3 : deduct_tires i₂ md = Except.error msg) :
    deduct_all inv md = Except.error msg := by
  simp [deduct_all, h1, h2, h3, Except.bind]

/-- C1: whenever a maintenance record requests a part whose stock is
insufficient (oil or air filter requested at stock ≤ 0, or more tires
requested than are in stock), `add_maintenance_record` fails, the
persisted maintenance collection and inventory mapping come back exactly
as they were — the in-memory decrements of earlier items are never
saved — and the failure message names a requested item whose stock is
insufficient. -/
theorem add_maintenance_record_insufficient_stock_atomic
    (records : List MaintRecord) (inv : Dict Int) (md : MaintRecord)
    (now : String)
    (h : (md.oil_changed = true ∧ invGet inv "oil" ≤ 0) ∨
         (md.air_filter_changed = true ∧ invGet inv "air_filter" ≤ 0) ∨
         (0 < md.tires_changed ∧ invGet inv "tires" < md.tires_changed)) :
    ∃ msg, add_maintenance_record records inv md now
        = ((false, msg), records, inv) ∧
      ((msg = "Insufficient oil in inventory" ∧
          md.oil_changed = true ∧ invGet inv "oil" ≤ 0) ∨
       (msg = "Insufficient air filters in inventory" ∧
          md.air_filter_changed = true ∧ invGet inv "air_filter" ≤ 0) ∨
       (msg = "Insufficient tires in inventory" ∧
          0 < md.tires_changed ∧ invGet inv "tires" < md.tires_changed)) := by
  by_cases ho : md.oil_changed = true
  · by_cases hoil : 0 < invGet inv "oil"
    · -- the oil decrement succeeds in memory
      have e1 : deduct_oil inv md
          = Except.ok (dset inv "oil" (invGet inv "oil" - 1)) := by
        simp [deduct_oil, ho, hoil]
      have haf_eq : invGet (dset inv "oil" (invGet inv "oil" - 1)) "air_filter"
          = invGet inv "air_filter" := invGet_dset_ne _ _ _ _ (by decide)
      have htr_eq : invGet (dset inv "oil" (invGet inv "oil" - 1)) "tires"
          = invGet inv "tires" := invGet_dset_ne _ _ _ _ (by decide)
      by_cases ha : md.air_filter_changed = true
      · by_cases haf : 0 < invGet inv "air_filter"
        · -- the air-filter decrement also succeeds in memory
          have e2 : deduct_air_filter (dset inv "oil" (invGet inv "oil" - 1)) md
              = Except.ok (dset (dset inv "oil" (invGet inv "oil" - 1))
                  "air_filter"
                  (invGet (dset inv "oil" (invGet inv "oil" - 1)) "air_filter" - 1)) := by
            simp [deduct_air_filter, ha, haf_eq, haf]
          have htr2 : invGet (dset (dset inv "oil" (invGet inv "oil" - 1))
                "air_filter"
                (invGet (dset inv "oil" (invGet inv "oil" - 1)) "air_filter" - 1))
              "tires" = invGet inv "tires" := by
            rw [invGet_dset_ne _ _ _ _ (by decide), htr_eq]
          have htfail : 0 < md.tires_changed ∧
              invGet inv "tires" < md.tires_changed := by
            rcases h with h' | h' | h'
            · omega
            · omega
            · exact h'
          have e3 : deduct_tires (dset (dset inv "oil" (invGet inv "oil" - 1))
                "air_filter"
                (invGet (dset inv "oil" (invGet inv "oil" - 1)) "air_filter" - 1)) md
              = Except.error "Insufficient tires in inventory" := by
            rw [deduct_tires, if_pos htfail.1, htr2, if_neg (by omega)]
          exact ⟨"Insufficient tires in inventory",
            add_maintenance_record_of_error _ _ _ _ _
              (deduct_all_error_tires _ _ _ _ _ e1 e2 e3),
            Or.inr (Or.inr ⟨rfl, htfail⟩)⟩
        · -- the air filter is requested but out of stock
          have e2 : deduct_air_filter (dset inv "oil" (invGet inv "oil" - 1)) md
              = Except.error "Insufficient air filters in inventory" := by
            rw [deduct_air_filter, if_pos ha, haf_eq, if_neg haf]
          exact ⟨"Insufficient air filters in inventory",
            add_maintenance_record_of_error _ _ _ _ _
              (deduct_all_error_air_filter _ _ _ _ e1 e2),
            Or.inr (Or.inl ⟨rfl, ha, by omega⟩)⟩
      · -- no air filter requested
        have e2 : deduct_air_filter (dset inv "oil" (invGet inv "oil" - 1)) md
            = Except.ok (dset inv "oil" (invGet inv "oil" - 1)) := by
          simp [deduct_air_filter, ha]
        have htfail : 0 < md.tires_changed ∧
            invGet inv "tires" < md.tires_changed := by
          rcases h with h' | h' | h'
          · omega
          · exact absurd h'.1 ha
          · exact h'
        have e3 : deduct_tires (dset inv "oil" (invGet inv "oil" - 1)) md
            = Except.error "Insufficient tires in inventory" := by
          rw [deduct_tires, if_pos htfail.1, htr_eq, if_neg (by omega)]
        exact ⟨"Insufficient tires in inventory",
          add_maintenance_record_of_error _ _ _ _ _
            (deduct_all_error_tires _ _ _ _ _ e1 e2 e3),
          Or.inr (Or.inr ⟨rfl, htfail⟩)⟩
    · -- oil requested but out of stock
      have e1 : deduct_oil inv md = Except.error "Insufficient oil in inventory" := by
        rw [deduct_oil, if_pos ho, if_neg hoil]
      exact ⟨"Insufficient oil in inventory",
        add_maintenance_record_of_error _ _ _ _ _ (deduct_all_error_oil _ _ _ e1),
        Or.inl ⟨rfl, ho, by omega⟩⟩
  · -- no oil change requested
    have e1 : deduct_oil inv md = Except.ok inv := by
      simp [deduct_oil, ho]
    by_cases ha : md.air_filter_changed = true
    · by_cases haf : 0 < invGet inv "air_filter"
      · have e2 : deduct_air_filter inv md
            = Except.ok (dset inv "air_filter" (invGet inv "air_filter" - 1)) := by
          simp [deduct_air_filter, ha, haf]
        have htr2 : invGet (dset inv "air_filter" (invGet inv "air_filter" - 1))
            "tires" = invGet inv "tires" := invGet_dset_ne _ _ _ _ (by decide)
        have htfail : 0 < md.tires_changed ∧
            invGet inv "tires" < md.tires_changed := by
          rcases h with h' | h' | h'
          · exact absurd h'.1 ho
          · omega
          · exact h'
        have e3 : deduct_tires (dset inv "air_filter" (invGet inv "air_filter" - 1)) md
            = Except.error "Insufficient tires in inventory" := by
          rw [deduct_tires, if_pos htfail.1, htr2, if_neg (by omega)]
        exact ⟨"Insufficient tires in inventory",
          add_maintenance_record_of_error _ _ _ _ _
            (deduct_all_error_tires _ _ _ _ _ e1 e2 e3),
          Or.inr (Or.inr ⟨rfl, htfail⟩)⟩
      · have e2 : deduct_air_filter inv md
            = Except.error "Insufficient air filters in inventory" := by
          rw [deduct_air_filter, if_pos ha, if_neg haf]
        exact ⟨"Insufficient air filters in inventory",
          add_maintenance_record_of_error _ _ _ _ _
            (deduct_all_error_air_filter _ _ _ _ e1 e2),
          Or.inr (Or.inl ⟨rfl, ha, by omega⟩)⟩
    · have e2 : deduct_air_filter inv md = Except.ok inv := by
        simp [deduct_air_filter, ha]
      have htfail : 0 < md.tires_changed ∧
          invGet inv "tires" < md.tires_changed := by
        rcases h with h' | h' | h'
        · exact absurd h'.1 ho
        · exact absurd h'.1 ha
        · exact h'
      have e3 : deduct_tires inv md
          = Except.error "Insufficient tires in inventory" := by
        rw [deduct_tires, if_pos htfail.1, if_neg (by omega)]
      exact ⟨"Insufficient tires in inventory",
        add_maintenance_record_of_error _ _ _ _ _
          (deduct_all_error_tires _ _ _ _ _ e1 e2 e3),
        Or.inr (Or.inr ⟨rfl, htfail⟩)⟩

/-- C1 witness: with no oil in stock, a record requesting an oil change
(on an inventory that could partially satisfy other items) is rejected
with the oil message and both collections are untouched. -/
theorem add_maintenance_record_insufficient_witness :
    add_maintenance_record [] [("oil", 0), ("air_filter", 4), ("tires", 2)]
        { plate_number := "ABC-123", oil_changed := true,
          air_filter_changed := true, tires_changed := 0,
          created_at := "", id := 0 } "2025-01-01T00:00:00"
      = ((false, "Insufficient oil in inventory"), [],
          [("oil", 0), ("air_filter", 4), ("tires", 2)]) := by
  obtain ⟨msg, heq, hmsg⟩ := add_maintenance_record_insufficient_stock_atomic
    [] [("oil", 0), ("air_filter", 4), ("tires", 2)]
    { plate_number := "ABC-123", oil_changed := true,
      air_filter_changed := true, tires_changed := 0,
      created_at := "", id := 0 } "2025-01-01T00:00:00"
    (Or.inl ⟨rfl, by decide⟩)
  rcases hmsg with ⟨hm, -⟩ | ⟨-, -, hbad⟩ | ⟨-, hbad, -⟩
  · rw [hm] at heq
    exact heq
  · exact absurd hbad (by decide)
  · exact absurd hbad (by decide)

theorem maxByCreatedAt_mem (x : MaintRecord) (xs : List MaintRecord) :
    maxByCreatedAt x xs ∈ x :: xs := by
  induction xs generalizing x with
  | nil => simp [maxByCreatedAt]
  | cons y ys ih =>
    have h := ih (if x.created_at < y.created_at then y else x)
    simp only [maxByCreatedAt, List.foldl_cons] at h ⊢
    rcases List.mem_cons.mp h with h1 | h1
    · rw [h1]
      split <;> simp
    · exact List.mem_cons_of_mem _ (List.mem_cons_of_mem _ h1)

theorem maxByCreatedAt_ge (x : MaintRecord) (xs : List MaintRecord) :
    ∀ m ∈ x :: xs, m.created_at ≤ (maxByCreatedAt x xs).created_at := by
  induction xs generalizing x with
  | nil =>
    intro m hm
    rw [List.mem_singleton] at hm
    rw [hm]
    exact le_refl _
  | cons y ys ih =>
    intro m hm
    have hstep : ∀ m' ∈ (if x.created_at < y.created_at then y else x) :: ys,
        m'.created_at ≤ (maxByCreatedAt
          (if x.created_at < y.created_at then y else x) ys).created_at :=
      ih (if x.created_at < y.created_at then y else x)
    have hgoal : maxByCreatedAt x (y :: ys)
        = maxByCreatedAt (if x.created_at < y.created_at then y else x) ys := rfl
    rw [hgoal]
    rcases List.mem_cons.mp hm with h1 | h1
    · subst h1
      refine le_trans ?_ (hstep _ (List.mem_cons_self _ _))
      split
      · exact le_of_lt (by assumption)
      · exact le_refl _
    · rcases List.mem_cons.mp h1 with h2 | h2
      · subst h2
        refine le_trans ?_ (hstep _ (List.mem_cons_self _ _))
        split
        · exact le_refl _
        · exact le_of_not_lt (by assumption)
      · exact hstep m (List.mem_cons_of_mem _ h2)

/-- C6: `get_maintenance_alerts` emits per vehicle, in vehicle order, the
alert computed by `maintenance_alert_for`; per vehicle that alert is a
high-priority "no maintenance records" alert when the vehicle has no
maintenance records, and otherwise is driven by the whole days `d`
elapsed since the record maximal by `created_at` under the string order:
no alert for `d ≤ 90`, a medium-priority alert for `91 ≤ d ≤ 180`, and a
high-priority alert for `d > 180`. -/
theorem get_maintenance_alerts_characterisation (vehicles : List Vehicle)
    (records : List MaintRecord) (daysSince : String → Int) :
    get_maintenance_alerts vehicles records daysSince
      = vehicles.filterMap
          (fun v => maintenance_alert_for records daysSince v.plate_number) ∧
    ∀ plate : String,
      (records.filter (fun m => decide (m.plate_number = plate)) = [] →
        maintenance_alert_for records daysSince plate
          = some [("plate_number", plate),
              ("alert", "No maintenance records found"), ("priority", "high")]) ∧
      (∀ h t, records.filter (fun m => decide (m.plate_number = plate)) = h :: t →
        (maxByCreatedAt h t ∈ h :: t ∧
          ∀ m ∈ h :: t, m.created_at ≤ (maxByCreatedAt h t).created_at) ∧
        (daysSince (maxByCreatedAt h t).created_at ≤ 90 →
          maintenance_alert_for records daysSince plate = none) ∧
        (91 ≤ daysSince (maxByCreatedAt h t).created_at ∧
            daysSince (maxByCreatedAt h t).created_at ≤ 180 →
          maintenance_alert_for records daysSince plate
            = some [("plate_number", plate),
                ("alert", "Last maintenance "
                  ++ toString (daysSince (maxByCreatedAt h t).created_at)
                  ++ " days ago"),
                ("priority", "medium")]) ∧
        (180 < daysSince (maxByCreatedAt h t).created_at →
          maintenance_alert_for records daysSince plate
            = some [("plate_number", plate),
                ("alert", "Last maintenance "
                  ++ toString (daysSince (maxByCreatedAt h t).created_at)
                  ++ " days ago"),
                ("priority", "high")])) := by
  refine ⟨rfl, fun plate => ⟨fun hempty => ?_, fun h t hcons => ?_⟩⟩
  · rw [maintenance_alert_for, hempty]
  · refine ⟨⟨maxByCreatedAt_mem h t, maxByCreatedAt_ge h t⟩, ?_, ?_, ?_⟩
    · intro hle
      rw [maintenance_alert_for, hcons]
      simp only
      rw [if_neg (by omega)]
    · intro hmed
      rw [maintenance_alert_for, hcons]
      simp only
      rw [if_pos (by omega), if_neg (by omega)]
    · intro hhigh
      rw [maintenance_alert_for, hcons]
      simp only
      rw [if_pos (by omega), if_pos (by omega)]

/-- C6 witness: a vehicle without maintenance records yields the
high-priority "no records" alert. -/
theorem get_maintenance_alerts_witness :
    maintenance_alert_for [] (fun _ => 0) "ABC-123"
      = some [("plate_number", "ABC-123"),
          ("alert", "No maintenance records found"), ("priority", "high")] :=
  (((get_maintenance_alerts_characterisation [] [] (fun _ => 0)).2
    "ABC-123").1) rfl

/-- C10: every alert produced by `get_maintenance_alerts` has exactly the
keys `plate_number`, `alert` and `priority`, with priority `high` or
`medium`; no alert carries an `alert_type` key, so the
`alert['alert_type']` read in `show_maintenance_alerts` finds nothing
(raises `KeyError`) for every alert in any non-empty alert list. -/
theorem get_maintenance_alerts_have_no_alert_type (vehicles : List Vehicle)
    (records : List MaintRecord) (daysSince : String → Int) :
    ∀ a ∈ get_maintenance_alerts vehicles records daysSince,
      dkeys a = ["plate_number", "alert", "priority"] ∧
      (dget a "priority" = some "high" ∨ dget a "priority" = some "medium") ∧
      dget a "alert_type" = none ∧
      show_maintenance_alerts_read a = none := by
  intro a ha
  obtain ⟨v, -, hv⟩ := List.mem_filterMap.mp ha
  rw [maintenance_alert_for] at hv
  split at hv
  · obtain rfl := Option.some_injective _ hv
    refine ⟨rfl, Or.inl rfl, rfl, rfl⟩
  · dsimp only at hv
    split at hv
    · obtain rfl := Option.some_injective _ hv
      refine ⟨rfl, ?_, rfl, rfl⟩
      split
      · exact Or.inl rfl
      · exact Or.inr rfl
    · exact absurd hv (by simp)

/-- C10 witness: the concrete alert emitted for a vehicle with no
records has no `alert_type` key to read. -/
theorem get_maintenance_alerts_no_alert_type_witness :
    show_maintenance_alerts_read [("plate_number", "ABC-123"),
      ("alert", "No maintenance records found"), ("priority", "high")] = none :=
  (get_maintenance_alerts_have_no_alert_type [⟨"ABC-123"⟩] [] (fun _ => 0)
    [("plate_number", "ABC-123"),
      ("alert", "No maintenance records found"), ("priority", "high")]
    (by decide)).2.2.2

/-- C2: through the add-vehicle form, which uppercases the entered plate
number, a duplicate is detected exactly case-insensitively against the
stored (uppercased) plates: on a match `add_vehicle` fails and the
persisted collection is unchanged; otherwise the record is appended with
`id = previous length + 1`, the uppercased plate, and a `created_at`
equal to the sampled (non-empty) timestamp, and the call succeeds. -/
theorem add_vehicle_plate_number_unique (vehicles : List (Dict Val))
    (plate_number : String) (rest : Dict Val) (now : String)
    (hstored : ∀ v ∈ vehicles, ∃ p : String,
      dget v "plate_number" = some (Val.s p) ∧ pyUpper p = p)
    (hnow : now ≠ "") :
    ((∃ v ∈ vehicles, ∃ p : String,
        dget v "plate_number" = some (Val.s p) ∧ pyUpper p = pyUpper plate_number) →
      show_add_vehicle_submit vehicles plate_number rest now
        = ((false, "Vehicle with this plate number already exists"), vehicles)) ∧
    (¬(∃ v ∈ vehicles, ∃ p : String,
        dget v "plate_number" = some (Val.s p) ∧ pyUpper p = pyUpper plate_number) →
      show_add_vehicle_submit vehicles plate_number rest now
        = ((true, "Vehicle added successfully"),
            vehicles ++ [dset (dset (("plate_number", Val.s (pyUpper plate_number))
              :: rest) "created_at" (Val.s now))
              "id" (Val.i (vehicles.length + 1))]) ∧
      (∀ newv, ((show_add_vehicle_submit vehicles plate_number rest now).2
          = vehicles ++ [newv]) →
        dget newv "id" = some (Val.i (vehicles.length + 1)) ∧
        dget newv "plate_number" = some (Val.s (pyUpper plate_number)) ∧
        ∃ c, dget newv "created_at" = some (Val.s c) ∧ c ≠ "")) := by
  have hvd : dget (("plate_number", Val.s (pyUpper plate_number)) :: rest)
      "plate_number" = some (Val.s (pyUpper plate_number)) := by
    simp [dget]
  have hdup : (vehicles.any (fun v => decide (dget v "plate_number"
        = dget (("plate_number", Val.s (pyUpper plate_number)) :: rest)
            "plate_number")) = true) ↔
      (∃ v ∈ vehicles, ∃ p : String,
        dget v "plate_number" = some (Val.s p)
          ∧ pyUpper p = pyUpper plate_number) := by
    rw [List.any_eq_true]
    constructor
    · rintro ⟨v, hvmem, hveq⟩
      rw [decide_eq_true_eq, hvd] at hveq
      obtain ⟨p, hp, hpu⟩ := hstored v hvmem
      refine ⟨v, hvmem, p, hp, ?_⟩
      rw [hp] at hveq
      obtain rfl : p = pyUpper plate_number := by
        simpa using hveq
      rw [hpu]
    · rintro ⟨v, hvmem, p, hp, hpeq⟩
      obtain ⟨p', hp', hpu'⟩ := hstored v hvmem
      rw [hp'] at hp
      obtain rfl : p' = p := by simpa using hp
      refine ⟨v, hvmem, ?_⟩
      rw [decide_eq_true_eq, hvd, hp']
      rw [← hpu', hpeq]
  constructor
  · intro hd
    rw [show_add_vehicle_submit, add_vehicle, if_pos (hdup.mpr hd)]
  · intro hd
    have heq : show_add_vehicle_submit vehicles plate_number rest now
        = ((true, "Vehicle added successfully"),
            vehicles ++ [dset (dset (("plate_number", Val.s (pyUpper plate_number))
              :: rest) "created_at" (Val.s now))
              "id" (Val.i (vehicles.length + 1))]) := by
      rw [show_add_vehicle_submit, add_vehicle, if_neg]
      intro hc
      exact hd (hdup.mp hc)
    refine ⟨heq, fun newv hnew => ?_⟩
    rw [heq] at hnew
    have : newv = dset (dset (("plate_number", Val.s (pyUpper plate_number))
        :: rest) "created_at" (Val.s now)) "id" (Val.i (vehicles.length + 1)) := by
      have := List.append_cancel_left hnew
      simpa using this.symm
    subst this
    refine ⟨dget_dset_self _ _ _, ?_, now, ?_, hnow⟩
    · rw [dget_dset_ne _ _ _ _ (by decide), dget_dset_ne _ _ _ _ (by decide)]
      simp [dget]
    · rw [dget_dset_ne _ _ _ _ (by decide), dget_dset_self]

/-- C2 witness: against a stored fleet containing plate "ABC-123",
submitting "abc-123" is rejected and the collection is unchanged, while
submitting "XYZ-9" is appended with id 2 and a non-empty `created_at`. -/
theorem add_vehicle_plate_number_unique_witness :
    show_add_vehicle_submit [[("plate_number", Val.s "ABC-123")]] "abc-123"
        [("driver_name", Val.s "Ali")] "2025-01-01T00:00:00"
      = ((false, "Vehicle with this plate number already exists"),
          [[("plate_number", Val.s "ABC-123")]]) ∧
    (show_add_vehicle_submit [[("plate_number", Val.s "ABC-123")]] "XYZ-9"
        [("driver_name", Val.s "Ali")] "2025-01-01T00:00:00").1.1 = true := by
  constructor
  · exact (add_vehicle_plate_number_unique [[("plate_number", Val.s "ABC-123")]]
      "abc-123" [("driver_name", Val.s "Ali")] "2025-01-01T00:00:00"
      (by
        intro v hv
        rw [List.mem_singleton] at hv
        exact ⟨"ABC-123", by rw [hv]; rfl, by decide⟩)
      (by decide)).1
      ⟨[("plate_number", Val.s "ABC-123")], List.mem_singleton_self _,
        "ABC-123", rfl, by decide⟩
  · rw [((add_vehicle_plate_number_unique [[("plate_number", Val.s "ABC-123")]]
      "XYZ-9" [("driver_name", Val.s "Ali")] "2025-01-01T00:00:00"
      (by
        intro v hv
        rw [List.mem_singleton] at hv
        exact ⟨"ABC-123", by rw [hv]; rfl, by decide⟩)
      (by decide)).2
      (by
        rintro ⟨v, hv, p, hp, hpu⟩
        rw [List.mem_singleton] at hv
        rw [hv] at hp
        simp [dget] at hp
        subst hp
        exact absurd hpu (by decide))).1]

theorem update_vehicle_not_found (vehicles : List (Dict Val))
    (plate_number : String) (updated_data : Dict Val) (now : String)
    (h : ∀ v ∈ vehicles, dget v "plate_number" ≠ some (Val.s plate_number)) :
    update_vehicle vehicles plate_number updated_data now
      = ((false, "Vehicle not found"), vehicles) := by
  induction vehicles with
  | nil => rfl
  | cons v rest ih =>
    rw [update_vehicle, if_neg (h v (List.mem_cons_self _ _)),
      ih (fun w hw => h w (List.mem_cons_of_mem _ hw))]

theorem update_vehicle_found (pre post : List (Dict Val)) (v : Dict Val)
    (plate_number : String) (updated_data : Dict Val) (now : String)
    (hpre : ∀ w ∈ pre, dget w "plate_number" ≠ some (Val.s plate_number))
    (hv : dget v "plate_number" = some (Val.s plate_number)) :
    update_vehicle (pre ++ v :: post) plate_number updated_data now
      = ((true, "Vehicle updated successfully"),
          pre ++ dset (dictMerge v updated_data) "updated_at" (Val.s now) :: post) := by
  induction pre with
  | nil => simp [update_vehicle, hv]
  | cons w pre' ih =>
    rw [List.cons_append, update_vehicle,
      if_neg (hpre w (List.mem_cons_self _ _)),
      ih (fun x hx => hpre x (List.mem_cons_of_mem _ hx))]
    rfl

theorem update_load_status_not_found (loads : List (Dict Val))
    (load_number new_status now : String)
    (h : ∀ l ∈ loads, dget l "load_number" ≠ some (Val.s load_number)) :
    update_load_status loads load_number new_status now
      = ((false, "Load not found"), loads) := by
  induction loads with
  | nil => rfl
  | cons l rest ih =>
    rw [update_load_status, if_neg (h l (List.mem_cons_self _ _)),
      ih (fun w hw => h w (List.mem_cons_of_mem _ hw))]

theorem update_load_status_found (pre post : List (Dict Val)) (l : Dict Val)
    (load_number new_status now : String)
    (hpre : ∀ w ∈ pre, dget w "load_number" ≠ some (Val.s load_number))
    (hl : dget l "load_number" = some (Val.s load_number)) :
    update_load_status (pre ++ l :: post) load_number new_status now
      = ((true, "Load status updated successfully"),
          pre ++ dset (dset l "status" (Val.s new_status))
            "updated_at" (Val.s now) :: post) := by
  induction pre with
  | nil => simp [update_load_status, hl]
  | cons w pre' ih =>
    rw [List.cons_append, update_load_status,
      if_neg (hpre w (List.mem_cons_self _ _)),
      ih (fun x hx => hpre x (List.mem_cons_of_mem _ hx))]
    rfl

/-- C8: updating by natural key.  When no record carries the key,
`update_vehicle` / `update_load_status` fail and return the collection
unchanged.  When the key is present, the first matching record — and
only it — is replaced: its fields read as `updated_at = now`, then the
supplied fields (`dict.update` semantics, duplicate-free update keys),
then the original fields; every record before and after it is returned
as is, and the call succeeds. -/
theorem update_by_natural_key_frame (vehicles loads : List (Dict Val))
    (plate_number load_number new_status now : String)
    (updated_data : Dict Val) (hnodup : (dkeys updated_data).Nodup) :
    ((∀ v ∈ vehicles, dget v "plate_number" ≠ some (Val.s plate_number)) →
      update_vehicle vehicles plate_number updated_data now
        = ((false, "Vehicle not found"), vehicles)) ∧
    (∀ pre v post, vehicles = pre ++ v :: post →
      (∀ w ∈ pre, dget w "plate_number" ≠ some (Val.s plate_number)) →
      dget v "plate_number" = some (Val.s plate_number) →
      update_vehicle vehicles plate_number updated_data now
        = ((true, "Vehicle updated successfully"),
            pre ++ dset (dictMerge v updated_data) "updated_at" (Val.s now)
              :: post) ∧
      (∀ k, dget (dset (dictMerge v updated_data) "updated_at" (Val.s now)) k
        = if k = "updated_at" then some (Val.s now)
          else optOr (dget updated_data k) (dget v k))) ∧
    ((∀ l ∈ loads, dget l "load_number" ≠ some (Val.s load_number)) →
      update_load_status loads load_number new_status now
        = ((false, "Load not found"), loads)) ∧
    (∀ pre l post, loads = pre ++ l :: post →
      (∀ w ∈ pre, dget w "load_number" ≠ some (Val.s load_number)) →
      dget l "load_number" = some (Val.s load_number) →
      update_load_status loads load_number new_status now
        = ((true, "Load status updated successfully"),
            pre ++ dset (dset l "status" (Val.s new_status))
              "updated_at" (Val.s now) :: post) ∧
      (∀ k, dget (dset (dset l "status" (Val.s new_status))
          "updated_at" (Val.s now)) k
        = if k = "updated_at" then some (Val.s now)
          else if k = "status" then some (Val.s new_status)
          else dget l k)) := by
  refine ⟨update_vehicle_not_found vehicles plate_number updated_data now,
    ?_, update_load_status_not_found loads load_number new_status now, ?_⟩
  · intro pre v post hsplit hpre hv
    subst hsplit
    refine ⟨update_vehicle_found pre post v plate_number updated_data now hpre hv,
      fun k => ?_⟩
    rw [dget_dset]
    by_cases hk : k = "updated_at"
    · simp [hk]
    · rw [if_neg hk, if_neg hk, dget_dictMerge _ _ _ hnodup]
  · intro pre l post hsplit hpre hl
    subst hsplit
    refine ⟨update_load_status_found pre post l load_number new_status now hpre hl,
      fun k => ?_⟩
    rw [dget_dset]
    by_cases hk : k = "updated_at"
    · simp [hk]
    · rw [if_neg hk, if_neg hk, dget_dset]

/-- C8 witness: against a one-load, one-vehicle state, updating a missing
plate fails with the collection unchanged, and updating the present load
number succeeds, rewrites `status`, stamps `updated_at` and keeps the
other field. -/
theorem update_by_natural_key_frame_witness :
    update_vehicle [[("plate_number", Val.s "ABC-123")]] "ZZZ" []
        "2025-01-02T00:00:00"
      = ((false, "Vehicle not found"), [[("plate_number", Val.s "ABC-123")]]) ∧
    update_load_status [[("load_number", Val.s "LD000001"),
        ("status", Val.s "Loading")]] "LD000001" "Delivered"
        "2025-01-02T00:00:00"
      = ((true, "Load status updated successfully"),
          [[("load_number", Val.s "LD000001"),
            ("status", Val.s "Delivered"),
            ("updated_at", Val.s "2025-01-02T00:00:00")]]) := by
  have h := update_by_natural_key_frame [[("plate_number", Val.s "ABC-123")]]
    [[("load_number", Val.s "LD000001"), ("status", Val.s "Loading")]]
    "ZZZ" "LD000001" "Delivered" "2025-01-02T00:00:00" [] (by decide)
  refine ⟨h.1 ?_, ?_⟩
  · intro v hv
    rw [List.mem_singleton] at hv
    rw [hv]
    decide
  · have hfound := (h.2.2.2 [] [("load_number", Val.s "LD000001"),
      ("status", Val.s "Loading")] [] rfl (by simp) (by decide)).1
    rw [hfound]
    decide

/-- C9: every load the form successfully stores satisfies
`net_weight = gross_weight - tare_weight` (the submit guard forces
`net_weight > 0`, hence `tare < gross` and the clamp is inactive),
`amount = net_weight * rate_per_unit`,
`pending_amount = amount - advance_payment`, and
`load_number = "LD" ++` the 6-digit zero-padded previous length + 1;
`id` and `created_at` are stamped alongside. -/
theorem add_load_derived_fields (loads : List (Dict Val))
    (plate_number loading_date source destination party_name contractor
      product_type loading_time delivery_date delivery_time status notes
      now : String) (gross_weight tare_weight rate_per_unit advance_payment : ℚ)
    (hsucc : (show_add_load_submit loads plate_number loading_date source
      destination party_name contractor product_type loading_time
      delivery_date delivery_time status notes now gross_weight tare_weight
      rate_per_unit advance_payment).1.1 = true) :
    ∃ ld, (show_add_load_submit loads plate_number loading_date source
        destination party_name contractor product_type loading_time
        delivery_date delivery_time status notes now gross_weight tare_weight
        rate_per_unit advance_payment).2 = loads ++ [ld] ∧
      dget ld "load_number" = some (Val.s ("LD" ++ pad6 (loads.length + 1))) ∧
      dget ld "net_weight" = some (Val.q (gross_weight - tare_weight)) ∧
      dget ld "amount"
        = some (Val.q ((gross_weight - tare_weight) * rate_per_unit)) ∧
      dget ld "pending_amount"
        = some (Val.q ((gross_weight - tare_weight) * rate_per_unit
            - advance_payment)) ∧
      dget ld "gross_weight" = some (Val.q gross_weight) ∧
      dget ld "tare_weight" = some (Val.q tare_weight) ∧
      dget ld "advance_payment" = some (Val.q advance_payment) ∧
      dget ld "id" = some (Val.i (loads.length + 1)) ∧
      dget ld "created_at" = some (Val.s now) := by
  by_cases hreq : plate_number = "" ∨ source = "" ∨ party_name = ""
      ∨ gross_weight = 0 ∨ tare_weight = 0 ∨ rate_per_unit = 0
  · simp only [show_add_load_submit, if_pos hreq] at hsucc
    exact absurd hsucc (by decide)
  · by_cases hnet : (if tare_weight < gross_weight
        then gross_weight - tare_weight else 0 : ℚ) ≤ 0
    · simp only [show_add_load_submit, if_neg hreq, if_pos hnet] at hsucc
      exact absurd hsucc (by decide)
    · have htg : tare_weight < gross_weight := by
        by_contra hc
        rw [if_neg hc] at hnet
        exact hnet (le_refl 0)
      refine ⟨[("load_number", Val.s ("LD" ++ pad6 (loads.length + 1))),
         ("plate_number", Val.s plate_number),
         ("loading_date", Val.s loading_date),
         ("source", Val.s source),
         ("destination", Val.s destination),
         ("gross_weight", Val.q gross_weight),
         ("tare_weight", Val.q tare_weight),
         ("net_weight", Val.q (gross_weight - tare_weight)),
         ("rate_per_unit", Val.q rate_per_unit),
         ("amount", Val.q ((gross_weight - tare_weight) * rate_per_unit)),
         ("advance_payment", Val.q advance_payment),
         ("pending_amount", Val.q ((gross_weight - tare_weight) * rate_per_unit
             - advance_payment)),
         ("party_name", Val.s party_name),
         ("contractor", Val.s contractor),
         ("product_type", Val.s product_type),
         ("loading_time", Val.s loading_time),
         ("delivery_date", Val.s delivery_date),
         ("delivery_time", Val.s delivery_time),
         ("status", Val.s status),
         ("notes", Val.s notes),
         ("created_at", Val.s now),
         ("id", Val.i (loads.length + 1))], ?_,
        rfl, rfl, rfl, rfl, rfl, rfl, rfl, rfl, rfl⟩
      simp only [show_add_load_submit, if_neg hreq, if_neg hnet, add_load,
        if_pos htg]
      simp [dset]
      rw [if_neg (not_le.mpr htg)]

/-- C9 witness: the spec scenario — gross 10000, tare 4000, rate 2.5,
advance 5000 on an empty loads collection — stores net 6000,
amount 15000, pending 10000 under load number LD000001. -/
theorem add_load_derived_fields_witness :
    ∃ ld, (show_add_load_submit [] "ABC-123" "2025-01-01" "Refinery A"
        "Karachi" "Acme Transport" "" "LPG" "08:00:00" "2025-01-02"
        "10:00:00" "Loading" "" "2025-01-01T00:00:00"
        10000 4000 (2.5 : ℚ) 5000).2 = [ld] ∧
      dget ld "load_number" = some (Val.s "LD000001") ∧
      dget ld "net_weight" = some (Val.q 6000) ∧
      dget ld "amount" = some (Val.q 15000) ∧
      dget ld "pending_amount" = some (Val.q 10000) := by
  obtain ⟨ld, h1, h2, h3, h4, h5, -⟩ := add_load_derived_fields []
    "ABC-123" "2025-01-01" "Refinery A" "Karachi" "Acme Transport" ""
    "LPG" "08:00:00" "2025-01-02" "10:00:00" "Loading" ""
    "2025-01-01T00:00:00" 10000 4000 (2.5 : ℚ) 5000
    (by
      norm_num [show_add_load_submit, add_load]
      rw [if_neg (by decide)])
  refine ⟨ld, by simpa using h1, ?_, ?_, ?_, ?_⟩
  · rw [h2]
    decide
  · rw [h3]
    norm_num
  · rw [h4]
    norm_num
  · rw [h5]
    norm_num
